import Mathlib

/-!
Verification of the audiobook WAV export pipeline of `src/src-tauri/src/lib.rs`.

The Rust code is shallowly embedded:
* `f32` values are modelled as rationals (`ℚ`); `f32::clamp` and `f32::round`
  become `rustClamp` and `rustRound` (round half away from zero, as in Rust).
* Strings are modelled as `List Char` (`Str`) with structural `trim`,
  `toLower`, prefix test and split, so that all definitions evaluate.
* The effectful command `export_audiobook_wav` is modelled as a pure function
  from the request plus an environment (the oracle for the temp-file write,
  the child-process spawn, and the temp-file removal) to the returned
  `Result<String, String>` together with a trace of the file/process effects.
* The voice-resolution logic of the embedded PowerShell script
  `AUDIO_EXPORT_SCRIPT` is embedded as `resolve_voice`, with the script's two
  `Where-Object | Select-Object -First 1` queries as
  `voice_full_or_prefix_match` and `voice_base_match`.
-/

/-- Rust `f32::clamp(lo, hi)` (for non-NaN inputs): below `lo` gives `lo`,
above `hi` gives `hi`, otherwise the input itself. -/
def rustClamp (x lo hi : ℚ) : ℚ :=
  if x < lo then lo else if x > hi then hi else x

/-- Rust `f32::round`: round to nearest integer, ties away from zero. -/
def rustRound (x : ℚ) : ℤ :=
  if x < 0 then -⌊-x + 1/2⌋ else ⌊x + 1/2⌋

/-- `map_audio_rate_to_sapi` from `lib.rs`: clamp the rate to `[0.5, 2.0]`,
then map `[0.5, 1.0]` linearly onto `[-10, 0]` and `(1.0, 2.0]` linearly onto
`(0, 10]`, rounding to the nearest integer. -/
def map_audio_rate_to_sapi (rate : ℚ) : ℤ :=
  let clamped := rustClamp rate (1/2) 2
  if clamped ≤ 1 then
    rustRound (((clamped - 1/2) / (1/2)) * 10 - 10)
  else
    rustRound (((clamped - 1) / 1) * 10)

/-- `map_audio_volume_to_sapi` from `lib.rs`: clamp to `[0, 1]`, scale to
`[0, 100]`, round. -/
def map_audio_volume_to_sapi (volume : ℚ) : ℤ :=
  rustRound (rustClamp volume 0 1 * 100)

/-- The spec's piecewise rate formula, written independently of the code:
clamp to `[0.5, 2.0]` (via `max`/`min`), then for clamped rate `≤ 1.0` take
`round(((rate − 0.5)/0.5)·10 − 10)`, else `round(((rate − 1.0)/1.0)·10)`. -/
def spec_rate_formula (rate : ℚ) : ℤ :=
  let clamped := max (1/2) (min 2 rate)
  if clamped ≤ 1 then
    rustRound (((clamped - 1/2) / (1/2)) * 10 - 10)
  else
    rustRound (((clamped - 1) / 1) * 10)

/-- The spec's volume formula, written independently of the code:
round of (the input clamped to `[0, 1]` via `max`/`min`) times 100. -/
def spec_volume_formula (volume : ℚ) : ℤ :=
  rustRound (max 0 (min 1 volume) * 100)

/-- Strings of the embedding: lists of characters (so that every string
operation is structural and evaluates inside the kernel). -/
abbrev Str := List Char

/-- Whitespace test used by the trims (covers the whitespace actually
occurring at the interfaces: space, tab, newline, carriage return). -/
def isWsChar (c : Char) : Bool :=
  c == ' ' || c == '\t' || c == '\n' || c == '\r'

/-- Rust `str::trim` / .NET `String.Trim`: drop whitespace from both ends. -/
def trimChars (s : Str) : Str :=
  ((s.dropWhile isWsChar).reverse.dropWhile isWsChar).reverse

/-- .NET `ToLowerInvariant` restricted to the characters of the embedding. -/
def lowerChars (s : Str) : Str := s.map Char.toLower

/-- PowerShell `$language.Split('-')[0]`: everything before the first
hyphen (the whole string when no hyphen occurs). -/
def beforeHyphen (s : Str) : Str := s.takeWhile (fun c => c != '-')

/-- The deserialized `ExportAudiobookInput` struct of `lib.rs`. -/
structure ExportAudiobookInput where
  text : Str
  output_path : Str
  language : Str
  voice_name : Option Str
  rate : ℚ
  volume : ℚ

/-- Exit status of the child process, as in Rust's `ExitStatus`:
`code = some 0` is success. -/
structure ProcessStatus where
  code : Option ℤ

/-- Rust `ExitStatus::success`: the exit code is zero. -/
def ProcessStatus.success (s : ProcessStatus) : Bool := s.code == some 0

/-- Captured output of the child process (Rust `std::process::Output`). -/
structure ProcessOutput where
  status : ProcessStatus
  stdout : Str
  stderr : Str

/-- Environment oracle for one invocation of `export_audiobook_wav`:
the temp path produced by `build_temp_audio_text_path`, the outcome of
`fs::write` (`none` = success), the outcome of `Command::output`
(`Except.error` = the process could not start), and whether
`fs::remove_file` succeeds. -/
structure ExportEnv where
  tempPath : Str
  writeError : Option Str
  spawn : Except Str ProcessOutput
  removeSucceeds : Bool

/-- The parameters handed to the child process through the
`WRITEWME_AUDIO_*` environment variables. -/
structure ChildInvocation where
  text_path : Str
  out_path : Str
  language : Str
  voice : Str
  rate_sapi : ℤ
  volume_sapi : ℤ

/-- Trace of the file/process effects of one invocation: whether the staged
text file was written, whether its removal was attempted, whether it still
exists when the call returns, and the child-process invocation (with its
parameters) when one was attempted. -/
structure ExportTrace where
  tempWritten : Bool
  removalAttempted : Bool
  tempExists : Bool
  childCommand : Option ChildInvocation

/-- Trace of an invocation that returned before staging any file or
attempting any process: no effects at all. -/
def noWorkTrace : ExportTrace := ⟨false, false, false, none⟩

/-- Validation message for empty text (`lib.rs`). -/
def no_text_message : Str := "No hay texto para exportar.".data

/-- Validation message for an empty output path (`lib.rs`). -/
def no_output_path_message : Str :=
  "No se encontro la ruta de salida para el audiolibro.".data

/-- Failure message when the staged text cannot be written (`lib.rs`). -/
def staging_fail_message (error : Str) : Str :=
  "No se pudo preparar el texto para audio: ".data ++ error

/-- Failure message when the child process cannot start (`lib.rs`). -/
def spawn_fail_message (error : Str) : Str :=
  "No se pudo iniciar la exportacion de audio: ".data ++ error

/-- Failure message when the child process exits non-zero (`lib.rs`). -/
def wav_fail_message (detail : Str) : Str :=
  "Fallo al generar WAV: ".data ++ detail

/-- Rust `format!("{:?}", status.code())` on an `Option<i32>`. -/
def debug_option_int : Option ℤ → Str
  | some c => "Some(".data ++ (toString c).data ++ ")".data
  | none => "None".data

/-- The generic detail used when both captured streams are blank,
including the exit code (`lib.rs`). -/
def generic_exit_message (code : Option ℤ) : Str :=
  "PowerShell finalizo con codigo ".data ++ debug_option_int code

/-- The Windows variant of `export_audiobook_wav` from `lib.rs`, embedded
line by line: validate the trimmed text and output path, stage the text
(oracle `env.writeError`), run PowerShell on `AUDIO_EXPORT_SCRIPT` with the
parameters in environment variables (oracle `env.spawn`), unconditionally
attempt removal of the staged file, and classify the process result.
Returns the `Result<String, String>` together with the effect trace. -/
def export_audiobook_wav (input : ExportAudiobookInput) (env : ExportEnv) :
    Except Str Str × ExportTrace :=
  let normalized_text := trimChars input.text
  if normalized_text.isEmpty then
    (.error no_text_message, noWorkTrace)
  else
    let output_path := trimChars input.output_path
    if output_path.isEmpty then
      (.error no_output_path_message, noWorkTrace)
    else
      match env.writeError with
      | some error => (.error (staging_fail_message error), noWorkTrace)
      | none =>
        let requested_voice := trimChars (input.voice_name.getD [])
        let invocation : ChildInvocation :=
          ⟨env.tempPath, output_path, trimChars input.language, requested_voice,
            map_audio_rate_to_sapi input.rate, map_audio_volume_to_sapi input.volume⟩
        match env.spawn with
        | .error error =>
          (.error (spawn_fail_message error),
            ⟨true, true, !env.removeSucceeds, some invocation⟩)
        | .ok output =>
          if !output.status.success then
            let stderr := trimChars output.stderr
            let stdout := trimChars output.stdout
            let detail :=
              if !stderr.isEmpty then stderr
              else if !stdout.isEmpty then stdout
              else generic_exit_message output.status.code
            (.error (wav_fail_message detail),
              ⟨true, true, !env.removeSucceeds, some invocation⟩)
          else
            let exported_path := trimChars output.stdout
            if exported_path.isEmpty then
              (.ok output_path, ⟨true, true, !env.removeSucceeds, some invocation⟩)
            else
              (.ok exported_path, ⟨true, true, !env.removeSucceeds, some invocation⟩)

/-- The non-Windows variant of `export_audiobook_wav` from `lib.rs`: a fixed
unsupported-platform failure, with no file or process effects. -/
def export_audiobook_wav_unsupported (_input : ExportAudiobookInput) :
    Except Str Str × ExportTrace :=
  (.error ("La exportacion de audiolibro WAV con voces del sistema esta disponible solo en Windows por ahora.".data),
    noWorkTrace)

/-- An installed voice as seen by the PowerShell script: its enabled flag,
its name, and its culture name (`none` models a null `Culture`). -/
structure InstalledVoice where
  enabled : Bool
  name : Str
  culture : Option Str

/-- The filter of the script's first voice query: enabled, culture present,
and culture (lowercased) equal to the full lowercased tag or starting with
the lowercased base subtag followed by a hyphen. -/
def culture_full_or_prefix_pred (languageLower languageBase : Str)
    (v : InstalledVoice) : Bool :=
  v.enabled &&
    match v.culture with
    | some c =>
        lowerChars c == languageLower ||
          List.isPrefixOf (languageBase ++ "-".data) (lowerChars c)
    | none => false

/-- The filter of the script's fallback voice query: enabled, culture
present, and culture (lowercased) equal to the bare base subtag. -/
def culture_base_pred (languageBase : Str) (v : InstalledVoice) : Bool :=
  v.enabled &&
    match v.culture with
    | some c => lowerChars c == languageBase
    | none => false

/-- The script's first `Where-Object ... | Select-Object -First 1` query
(exact full-tag match or base-prefix match). -/
def voice_full_or_prefix_match (languageLower languageBase : Str)
    (voices : List InstalledVoice) : Option InstalledVoice :=
  voices.find? (culture_full_or_prefix_pred languageLower languageBase)

/-- The script's fallback `Where-Object ... | Select-Object -First 1` query
(culture equals the bare base subtag). -/
def voice_base_match (languageBase : Str)
    (voices : List InstalledVoice) : Option InstalledVoice :=
  voices.find? (culture_base_pred languageBase)

/-- The voice-resolution logic of `AUDIO_EXPORT_SCRIPT`, embedded from the
script: try the explicit voice name (the oracle `selectVoiceOk` tells
whether `SelectVoice` succeeds; a throw is caught and only clears the
selection flag), else run the full-tag/prefix query, else the base-subtag
query, else keep the engine default (`none`). Returns the selected voice
name, `none` meaning the engine default. -/
def resolve_voice (voiceEnv languageEnv : Str) (voices : List InstalledVoice)
    (selectVoiceOk : Str → Bool) : Option Str :=
  let voiceName := trimChars voiceEnv
  let language := trimChars languageEnv
  let voiceSelected := !voiceName.isEmpty && selectVoiceOk voiceName
  if voiceSelected then some voiceName
  else if !language.isEmpty then
    let languageLower := lowerChars language
    let languageBase := lowerChars (beforeHyphen language)
    let voiceMatch :=
      match voice_full_or_prefix_match languageLower languageBase voices with
      | some v => some v
      | none => voice_base_match languageBase voices
    match voiceMatch with
    | some v => some v.name
    | none => none
  else none

lemma rustClamp_eq_max_min (x lo hi : ℚ) (h : lo ≤ hi) :
    rustClamp x lo hi = max lo (min hi x) := by
  unfold rustClamp
  rcases lt_or_le x lo with h1 | h1
  · rw [if_pos h1, min_eq_right (le_of_lt (lt_of_lt_of_le h1 h)),
      max_eq_left (le_of_lt h1)]
  · rw [if_neg (not_lt.mpr h1)]
    rcases lt_or_le hi x with h2 | h2
    · rw [if_pos h2, min_eq_left (le_of_lt h2), max_eq_right h]
    · rw [if_neg (not_lt.mpr h2), min_eq_right h2, max_eq_right h1]

lemma rustClamp_low (x : ℚ) (h : x < 1/2) : rustClamp x (1/2) 2 = 1/2 := by
  unfold rustClamp; rw [if_pos h]

lemma rustClamp_high (x : ℚ) (h : 2 < x) : rustClamp x (1/2) 2 = 2 := by
  unfold rustClamp
  rw [if_neg (not_lt.mpr (by linarith)), if_pos h]

/-- C1: for every rate input, the native rate produced by
`map_audio_rate_to_sapi` equals the spec's piecewise formula applied after
clamping to `[0.5, 2.0]`; in particular rate `0.5 ↦ −10`, `1.0 ↦ 0`,
`2.0 ↦ 10`, any out-of-range rate behaves like the nearest bound, and
`3.0 ↦ 10`. -/
theorem map_audio_rate_matches_spec_formula :
    (∀ r : ℚ, map_audio_rate_to_sapi r = spec_rate_formula r) ∧
    map_audio_rate_to_sapi (1/2) = -10 ∧
    map_audio_rate_to_sapi 1 = 0 ∧
    map_audio_rate_to_sapi 2 = 10 ∧
    (∀ r : ℚ, r < 1/2 → map_audio_rate_to_sapi r = map_audio_rate_to_sapi (1/2)) ∧
    (∀ r : ℚ, 2 < r → map_audio_rate_to_sapi r = map_audio_rate_to_sapi 2) ∧
    map_audio_rate_to_sapi 3 = 10 := by
  refine ⟨?_, by norm_num [map_audio_rate_to_sapi, rustClamp, rustRound],
    by norm_num [map_audio_rate_to_sapi, rustClamp, rustRound],
    by norm_num [map_audio_rate_to_sapi, rustClamp, rustRound], ?_, ?_,
    by norm_num [map_audio_rate_to_sapi, rustClamp, rustRound]⟩
  · intro r
    unfold map_audio_rate_to_sapi spec_rate_formula
    rw [rustClamp_eq_max_min r (1/2) 2 (by norm_num)]
  · intro r h
    unfold map_audio_rate_to_sapi
    rw [rustClamp_low r h, show rustClamp (1/2) (1/2) 2 = 1/2 by norm_num [rustClamp]]
  · intro r h
    unfold map_audio_rate_to_sapi
    rw [rustClamp_high r h, show rustClamp 2 (1/2) 2 = 2 by norm_num [rustClamp]]

/-- C1 witness: the out-of-range clause of the theorem instantiated at the
concrete rate 3. -/
theorem map_audio_rate_matches_spec_formula_witness :
    map_audio_rate_to_sapi 3 = map_audio_rate_to_sapi 2 :=
  map_audio_rate_matches_spec_formula.2.2.2.2.2.1 3 (by norm_num)

/-- C8: for every volume input, the native volume produced by
`map_audio_volume_to_sapi` equals round of (the input clamped to `[0, 1]`)
times 100; in particular `0 ↦ 0`, `1 ↦ 100`, `1.5 ↦ 100`. -/
theorem map_audio_volume_matches_spec_formula :
    (∀ v : ℚ, map_audio_volume_to_sapi v = spec_volume_formula v) ∧
    map_audio_volume_to_sapi 0 = 0 ∧
    map_audio_volume_to_sapi 1 = 100 ∧
    map_audio_volume_to_sapi (3/2) = 100 := by
  refine ⟨?_, by norm_num [map_audio_volume_to_sapi, rustClamp, rustRound],
    by norm_num [map_audio_volume_to_sapi, rustClamp, rustRound],
    by norm_num [map_audio_volume_to_sapi, rustClamp, rustRound]⟩
  intro v
  unfold map_audio_volume_to_sapi spec_volume_formula
  rw [rustClamp_eq_max_min v 0 1 (by norm_num)]

lemma ne_of_getD_ne (i : Nat) (c : Char) (a b : Str)
    (h : List.getD a i c ≠ List.getD b i c) : a ≠ b :=
  fun he => h (he ▸ rfl)

/-- C2 counterexample: a success with empty stdout reports the trimmed
output path, which differs from the originally requested output path
`" salida.wav "` (whitespace-padded), so the reported path is not the
original path exactly. -/
theorem export_success_not_original_path_counterexample :
    (export_audiobook_wav ⟨"hola".data, " salida.wav ".data, "es".data, none, 1, 1⟩
        ⟨"t".data, none, .ok ⟨⟨some 0⟩, [], []⟩, true⟩).1 =
      .ok "salida.wav".data ∧
    ("salida.wav".data : Str) ≠ " salida.wav ".data := by
  exact ⟨rfl, by decide⟩

/-- C2 (amended): when the child exits with status zero, the export returns
success: the trimmed stdout when that is non-empty, else the trimmed
originally requested output path. -/
theorem export_success_path (input : ExportAudiobookInput) (tp : Str) (b : Bool)
    (out : ProcessOutput)
    (ht : (trimChars input.text).isEmpty = false)
    (hp : (trimChars input.output_path).isEmpty = false)
    (hc : out.status.code = some 0) :
    (export_audiobook_wav input ⟨tp, none, .ok out, b⟩).1 =
      .ok (if (trimChars out.stdout).isEmpty then trimChars input.output_path
        else trimChars out.stdout) := by
  by_cases hs : (trimChars out.stdout).isEmpty <;>
    simp [export_audiobook_wav, ht, hp, ProcessStatus.success, hc, hs]

/-- C2 witness: a concrete zero-exit invocation with non-empty stdout
returns the trimmed stdout. -/
theorem export_success_path_witness :
    (export_audiobook_wav ⟨"hola".data, "salida.wav".data, [], none, 1, 1⟩
        ⟨"t".data, none, .ok ⟨⟨some 0⟩, " final.wav ".data, []⟩, true⟩).1 =
      .ok "final.wav".data :=
  export_success_path _ _ _ _ (by decide) (by decide) rfl

/-- C3: when the child exits with a non-zero status, the export fails with a
detail chosen in order: trimmed stderr if non-empty, else trimmed stdout if
non-empty, else a generic message carrying the exit code; with a non-empty
stderr the message contains the trimmed stderr verbatim. -/
theorem export_nonzero_exit_failure (input : ExportAudiobookInput) (tp : Str)
    (b : Bool) (out : ProcessOutput)
    (ht : (trimChars input.text).isEmpty = false)
    (hp : (trimChars input.output_path).isEmpty = false)
    (hc : out.status.success = false) :
    (export_audiobook_wav input ⟨tp, none, .ok out, b⟩).1 =
      .error (wav_fail_message
        (if (trimChars out.stderr).isEmpty = false then trimChars out.stderr
          else if (trimChars out.stdout).isEmpty = false then trimChars out.stdout
          else generic_exit_message out.status.code)) ∧
    ((trimChars out.stderr).isEmpty = false →
      (export_audiobook_wav input ⟨tp, none, .ok out, b⟩).1 =
        .error ("Fallo al generar WAV: ".data ++ trimChars out.stderr)) := by
  constructor
  · by_cases he : (trimChars out.stderr).isEmpty <;>
      by_cases ho : (trimChars out.stdout).isEmpty <;>
      simp [export_audiobook_wav, ht, hp, hc, he, ho]
  · intro he
    simp [export_audiobook_wav, ht, hp, hc, he, wav_fail_message]

/-- C3 witness: a concrete non-zero exit with stderr `" boom "` fails with
the trimmed stderr embedded verbatim in the message. -/
theorem export_nonzero_exit_failure_witness :
    (export_audiobook_wav ⟨"hola".data, "salida.wav".data, [], none, 1, 1⟩
        ⟨"t".data, none, .ok ⟨⟨some 1⟩, [], " boom ".data⟩, true⟩).1 =
      .error "Fallo al generar WAV: boom".data :=
  (export_nonzero_exit_failure _ _ _ _ (by decide) (by decide) (by decide)).2
    (by decide)

/-- C4: blank text, and blank output path with non-blank text, are rejected
with dedicated messages before any temp file is created and before any
process is spawned (the trace is `noWorkTrace`), and the two validation
messages differ from each other and from both process-failure message
families. -/
theorem export_validation_rejects_blank_inputs :
    (∀ (input : ExportAudiobookInput) (env : ExportEnv),
      (trimChars input.text).isEmpty = true →
        export_audiobook_wav input env = (.error no_text_message, noWorkTrace)) ∧
    (∀ (input : ExportAudiobookInput) (env : ExportEnv),
      (trimChars input.text).isEmpty = false →
      (trimChars input.output_path).isEmpty = true →
        export_audiobook_wav input env = (.error no_output_path_message, noWorkTrace)) ∧
    no_text_message ≠ no_output_path_message ∧
    (∀ s, no_text_message ≠ spawn_fail_message s) ∧
    (∀ s, no_text_message ≠ wav_fail_message s) ∧
    (∀ s, no_output_path_message ≠ spawn_fail_message s) ∧
    (∀ s, no_output_path_message ≠ wav_fail_message s) := by
  refine ⟨?_, ?_, by decide, ?_, ?_, ?_, ?_⟩
  · intro input env ht
    simp [export_audiobook_wav, ht]
  · intro input env ht hp
    simp [export_audiobook_wav, ht, hp]
  · intro s
    exact ne_of_getD_ne 3 ' ' _ _ (show ('h' : Char) ≠ 's' by decide)
  · intro s
    exact ne_of_getD_ne 0 ' ' _ _ (show ('N' : Char) ≠ 'F' by decide)
  · intro s
    exact ne_of_getD_ne 6 ' ' _ _ (show ('e' : Char) ≠ 'p' by decide)
  · intro s
    exact ne_of_getD_ne 0 ' ' _ _ (show ('N' : Char) ≠ 'F' by decide)

/-- C4 witness: a concrete whitespace-only text is rejected with the
dedicated message and an all-false effect trace. -/
theorem export_validation_rejects_blank_inputs_witness :
    export_audiobook_wav ⟨" ".data, "salida.wav".data, [], none, 1, 1⟩
        ⟨[], none, .error [], true⟩ =
      (.error no_text_message, noWorkTrace) :=
  export_validation_rejects_blank_inputs.1 _ _ (by decide)

/-- C5: past staging, on every path (spawn failure, non-zero exit, success)
removal of the staged text file is attempted unconditionally, the returned
result does not depend on whether the removal succeeds, and when the removal
succeeds the staged file no longer exists when the call returns. -/
theorem export_temp_cleanup (input : ExportAudiobookInput) (tp : Str)
    (sp : Except Str ProcessOutput) (b b' : Bool)
    (ht : (trimChars input.text).isEmpty = false)
    (hp : (trimChars input.output_path).isEmpty = false) :
    (export_audiobook_wav input ⟨tp, none, sp, b⟩).2.removalAttempted = true ∧
    (export_audiobook_wav input ⟨tp, none, sp, b⟩).1 =
      (export_audiobook_wav input ⟨tp, none, sp, b'⟩).1 ∧
    (export_audiobook_wav input ⟨tp, none, sp, true⟩).2.tempExists = false := by
  cases sp with
  | error e => simp [export_audiobook_wav, ht, hp]
  | ok out =>
    by_cases hs : out.status.success <;>
      by_cases he : (trimChars out.stderr).isEmpty <;>
      by_cases ho : (trimChars out.stdout).isEmpty <;>
      simp [export_audiobook_wav, ht, hp, hs, he, ho]

/-- C5 witness: on a concrete spawn failure the removal of the staged file
is still attempted. -/
theorem export_temp_cleanup_witness :
    (export_audiobook_wav ⟨"hola".data, "salida.wav".data, [], none, 1, 1⟩
        ⟨"t".data, none, .error "acceso denegado".data, true⟩).2.removalAttempted = true :=
  (export_temp_cleanup _ "t".data (.error "acceso denegado".data) true true
    (by decide) (by decide)).1

/-- C9: on a platform lacking the native speech-synthesis capability, every
input gets the one fixed unsupported-platform failure, with no file or
process work (the trace is `noWorkTrace`). -/
theorem export_unsupported_fixed_failure :
    ∀ input : ExportAudiobookInput,
      export_audiobook_wav_unsupported input =
        (.error "La exportacion de audiolibro WAV con voces del sistema esta disponible solo en Windows por ahora.".data,
          noWorkTrace) :=
  fun _ => rfl

lemma export_childCommand_voice (input : ExportAudiobookInput) (env : ExportEnv)
    (inv : ChildInvocation)
    (hinv : (export_audiobook_wav input env).2.childCommand = some inv) :
    inv.voice = trimChars (input.voice_name.getD []) := by
  obtain ⟨tp, we, sp, b⟩ := env
  by_cases ht : (trimChars input.text).isEmpty
  · simp [export_audiobook_wav, ht, noWorkTrace] at hinv
  · by_cases hp : (trimChars input.output_path).isEmpty
    · simp [export_audiobook_wav, ht, hp, noWorkTrace] at hinv
    · cases we with
      | some e => simp [export_audiobook_wav, ht, hp, noWorkTrace] at hinv
      | none =>
        cases sp with
        | error e =>
          simp [export_audiobook_wav, ht, hp] at hinv
          rw [← hinv]
        | ok out =>
          by_cases hsc : out.status.success <;>
            by_cases he : (trimChars out.stderr).isEmpty <;>
            by_cases ho : (trimChars out.stdout).isEmpty <;>
            simp [export_audiobook_wav, ht, hp, hsc, he, ho] at hinv <;>
            rw [← hinv]

/-- C10: an absent voice name and a blank (whitespace-only) voice name
produce identical outcomes (result and effect trace), and any child process
spawned for them receives the empty voice string. -/
theorem export_blank_voice_equals_absent (text op lang : Str) (r v : ℚ)
    (s : Str) (env : ExportEnv) (hs : trimChars s = []) :
    export_audiobook_wav ⟨text, op, lang, some s, r, v⟩ env =
      export_audiobook_wav ⟨text, op, lang, none, r, v⟩ env ∧
    (∀ inv : ChildInvocation,
      (export_audiobook_wav ⟨text, op, lang, some s, r, v⟩ env).2.childCommand =
        some inv → inv.voice = []) := by
  constructor
  · simp only [export_audiobook_wav, hs, Option.getD_some, Option.getD_none,
      show trimChars [] = ([] : Str) from rfl]
  · intro inv hinv
    rw [export_childCommand_voice _ _ inv hinv]
    simp [hs]


/-- C10 witness: a concrete whitespace voice name and an absent voice name
give the same outcome on a concrete invocation. -/
theorem export_blank_voice_equals_absent_witness :
    export_audiobook_wav ⟨"hola".data, "salida.wav".data, [], some " ".data, 1, 1⟩
        ⟨"t".data, none, .error "os error".data, true⟩ =
      export_audiobook_wav ⟨"hola".data, "salida.wav".data, [], none, 1, 1⟩
        ⟨"t".data, none, .error "os error".data, true⟩ :=
  (export_blank_voice_equals_absent "hola".data "salida.wav".data [] 1 1
    " ".data ⟨"t".data, none, .error "os error".data, true⟩ (by decide)).1

lemma resolve_voice_es_mx (voices : List InstalledVoice) (sel : Str → Bool) :
    resolve_voice [] "es-MX".data voices sel =
      match (match voice_full_or_prefix_match "es-mx".data "es".data voices with
        | some v => some v
        | none => voice_base_match "es".data voices) with
      | some v => some v.name
      | none => none := rfl

/-- C6 counterexample: with language `es-MX`, no installed `es-MX` voice and
one installed enabled `es-ES` voice, the script's first query (full tag or
base-prefix, spec step 2) already returns the `es-ES` voice — because
`es-es` starts with `es-` — while the base-subtag query of step 3 does not
match it at all; so the voice is not selected via step 3. -/
theorem resolve_voice_es_es_via_step2_counterexample :
    resolve_voice [] "es-MX".data
        [⟨true, "Microsoft Helena Desktop".data, some "es-ES".data⟩]
        (fun _ => false) =
      some "Microsoft Helena Desktop".data ∧
    voice_full_or_prefix_match "es-mx".data "es".data
        [⟨true, "Microsoft Helena Desktop".data, some "es-ES".data⟩] =
      some ⟨true, "Microsoft Helena Desktop".data, some "es-ES".data⟩ ∧
    voice_base_match "es".data
        [⟨true, "Microsoft Helena Desktop".data, some "es-ES".data⟩] = none :=
  ⟨rfl, rfl, rfl⟩

/-- C6 (amended): in the `es-MX` scenario, when the enabled `es-ES` voice is
the first voice passing the step-2 exact-or-prefix test, the resolver
selects it via that step-2 query (its culture starts with `es-`); the
step-3 base-subtag test would not even match an `es-ES` culture. -/
theorem resolve_voice_es_mx_selects_es_es (pre post : List InstalledVoice)
    (name : Str) (sel : Str → Bool)
    (hpre : ∀ w ∈ pre, culture_full_or_prefix_pred "es-mx".data "es".data w = false) :
    voice_full_or_prefix_match "es-mx".data "es".data
        (pre ++ ⟨true, name, some "es-ES".data⟩ :: post) =
      some ⟨true, name, some "es-ES".data⟩ ∧
    resolve_voice [] "es-MX".data (pre ++ ⟨true, name, some "es-ES".data⟩ :: post) sel =
      some name ∧
    culture_base_pred "es".data ⟨true, name, some "es-ES".data⟩ = false := by
  have hfind : voice_full_or_prefix_match "es-mx".data "es".data
      (pre ++ ⟨true, name, some "es-ES".data⟩ :: post) =
      some ⟨true, name, some "es-ES".data⟩ := by
    unfold voice_full_or_prefix_match
    rw [List.find?_append]
    have hnone : List.find? (culture_full_or_prefix_pred "es-mx".data "es".data) pre = none := by
      rw [List.find?_eq_none]
      intro x hx
      simp [hpre x hx]
    rw [hnone]
    have hyes : culture_full_or_prefix_pred "es-mx".data "es".data
        ⟨true, name, some "es-ES".data⟩ = true := by
      simp only [culture_full_or_prefix_pred]
      decide
    simp [List.find?_cons, hyes]
  refine ⟨hfind, ?_, ?_⟩
  · rw [resolve_voice_es_mx, hfind]
  · simp only [culture_base_pred]
    decide

/-- C6 witness: the amended theorem at the concrete one-voice list. -/
theorem resolve_voice_es_mx_selects_es_es_witness :
    resolve_voice [] "es-MX".data [⟨true, "Helena".data, some "es-ES".data⟩]
        (fun _ => false) =
      some "Helena".data :=
  (resolve_voice_es_mx_selects_es_es [] [] "Helena".data (fun _ => false)
    (by simp)).2.1

/-- C7: when a non-blank explicit voice name is supplied and the engine
rejects its selection, resolution falls through to exactly the
language-based matching of the no-voice case (the export is not aborted),
and with a blank language it ends at the engine default. -/
theorem resolve_voice_rejected_falls_through (voiceEnv languageEnv : Str)
    (voices : List InstalledVoice) (sel : Str → Bool)
    (hne : (trimChars voiceEnv).isEmpty = false)
    (hreject : sel (trimChars voiceEnv) = false) :
    resolve_voice voiceEnv languageEnv voices sel =
      resolve_voice [] languageEnv voices sel ∧
    ((trimChars languageEnv).isEmpty = true →
      resolve_voice voiceEnv languageEnv voices sel = none) := by
  constructor
  · simp [resolve_voice, hne, hreject, show trimChars [] = ([] : Str) from rfl]
  · intro hl
    simp [resolve_voice, hne, hreject, hl]

/-- C7 witness: a concrete rejected voice name with a blank language ends at
the engine default. -/
theorem resolve_voice_rejected_falls_through_witness :
    resolve_voice "Paulina".data [] [] (fun _ => false) = none :=
  (resolve_voice_rejected_falls_through "Paulina".data [] [] (fun _ => false)
    (by decide) (by decide)).2 (by decide)

